import Mathlib

/-!
# Verification of drand-verify (BLS12-381 drand beacon verification)

Shallow embedding of the drand-verify crate.  Bytes are modelled as
`List Nat` (each entry a value `< 256`); fallible Rust functions returning
`Result<T, E>` become `Except E T`; a Rust `panic` is modelled, where a claim
needs it, as the `none` case of an `Option`.

The underlying BLS12-381 curve/pairing engine (the `bls12_381` crate) and the
SHA-256 implementation (the `sha2` crate) are external collaborators of this
repository.  They are modelled as an abstract `CurveEngine` record whose
fields are the exact capabilities the repository calls: compressed-point
decoding (checked and unchecked), hash-to-curve, point negation, the
multi-Miller loop, the final exponentiation and the group generators.
Algebraic facts about the engine (bilinearity of the pairing, multiplicativity
of the Miller loop / final exponentiation) appear as explicit hypotheses of
the theorems that need them.
-/

/-- The external curve/hash engine (the `bls12_381` and `sha2` crates), kept
abstract.  `Gone`/`Gtwo` are the affine point types of the two groups, `M` the
Miller-loop result type (`MillerLoopResult`, i.e. Fp12 before final
exponentiation) and `GT` the target group type (`Gt`). -/
structure CurveEngine (Gone Gtwo M GT : Type) where
  /-- `Sha256` digest of a byte string (`sha2` crate). -/
  sha256 : List Nat → List Nat
  /-- `HashToCurve::<ExpandMsgXmd<Sha256>>::hash_to_curve(msg, dst)` landing in G1. -/
  hashToCurveG1 : List Nat → List Nat → Gone
  /-- `HashToCurve::<ExpandMsgXmd<Sha256>>::hash_to_curve(msg, dst)` landing in G2. -/
  hashToCurveG2 : List Nat → List Nat → Gtwo
  /-- `G1Affine::from_compressed` (returns `CtOption`, modelled as `Option`). -/
  g1FromCompressed : List Nat → Option Gone
  /-- `G1Affine::from_compressed_unchecked` (no curve/subgroup validity check). -/
  g1FromCompressedUnchecked : List Nat → Option Gone
  /-- `G2Affine::from_compressed`. -/
  g2FromCompressed : List Nat → Option Gtwo
  /-- `G2Affine::from_compressed_unchecked`. -/
  g2FromCompressedUnchecked : List Nat → Option Gtwo
  /-- `G1Affine::generator()`. -/
  g1Generator : Gone
  /-- `G2Affine::generator()`. -/
  g2Generator : Gtwo
  /-- Negation in G1 (`-p`). -/
  negG1 : Gone → Gone
  /-- `Bls12::multi_miller_loop` over a list of (G1, G2) pairs. -/
  multiMillerLoop : List (Gone × Gtwo) → M
  /-- `MillerLoopResult::final_exponentiation`. -/
  finalExp : M → GT

section Points

variable {Gone Gtwo M GT : Type}

/-- `InvalidPoint` from src/points.rs: the enum has exactly the two variants
`InvalidLength { expected, actual }` and `DecodingError {}`. -/
inductive InvalidPoint where
  | InvalidLength (expected : Nat) (actual : Nat)
  | DecodingError
deriving DecidableEq, Repr

/-- The `Display` impl for `InvalidPoint` in src/points.rs. -/
def InvalidPoint.display : InvalidPoint → String
  | .InvalidLength expected actual =>
      "Invalid input length for point (must be in compressed format): Expected "
        ++ toString expected ++ ", actual: " ++ toString actual
  | .DecodingError => "Invalid point"

/-- `g1_from_fixed` from src/points.rs (default backend):
`Option::from(G1Affine::from_compressed(&data)).ok_or(DecodingError)`. -/
def g1_from_fixed (E : CurveEngine Gone Gtwo M GT) (data : List Nat) :
    Except InvalidPoint Gone :=
  match E.g1FromCompressed data with
  | some p => .ok p
  | none => .error .DecodingError

/-- `g1_from_fixed_unchecked` from src/points.rs:
like `g1_from_fixed` but using `from_compressed_unchecked`. -/
def g1_from_fixed_unchecked (E : CurveEngine Gone Gtwo M GT) (data : List Nat) :
    Except InvalidPoint Gone :=
  match E.g1FromCompressedUnchecked data with
  | some p => .ok p
  | none => .error .DecodingError

/-- `g2_from_fixed` from src/points.rs. -/
def g2_from_fixed (E : CurveEngine Gone Gtwo M GT) (data : List Nat) :
    Except InvalidPoint Gtwo :=
  match E.g2FromCompressed data with
  | some p => .ok p
  | none => .error .DecodingError

/-- `g2_from_fixed_unchecked` from src/points.rs. -/
def g2_from_fixed_unchecked (E : CurveEngine Gone Gtwo M GT) (data : List Nat) :
    Except InvalidPoint Gtwo :=
  match E.g2FromCompressedUnchecked data with
  | some p => .ok p
  | none => .error .DecodingError

/-- `g1_from_variable` from src/points.rs: length check (48) then the checked
fixed-size decoder is run on the copied buffer. -/
def g1_from_variable (E : CurveEngine Gone Gtwo M GT) (data : List Nat) :
    Except InvalidPoint Gone :=
  if data.length ≠ 48 then
    .error (.InvalidLength 48 data.length)
  else
    g1_from_fixed E data

/-- `g2_from_variable` from src/points.rs: length check (96) then the checked
fixed-size decoder. -/
def g2_from_variable (E : CurveEngine Gone Gtwo M GT) (data : List Nat) :
    Except InvalidPoint Gtwo :=
  if data.length ≠ 96 then
    .error (.InvalidLength 96 data.length)
  else
    g2_from_fixed E data

/-- `buf[..].clone_from_slice(data)` for a destination of length `dstLen`:
panics (modelled as `none`) unless the source slice has exactly that length. -/
def cloneFromSlice (dstLen : Nat) (src : List Nat) : Option (List Nat) :=
  if src.length = dstLen then some src else none

/-- `g1_from_variable` again, but with the panic behaviour of
`clone_from_slice` made explicit: `none` models a panic of the copy into the
fixed 48-byte buffer. -/
def g1_from_variable_panicking (E : CurveEngine Gone Gtwo M GT) (data : List Nat) :
    Option (Except InvalidPoint Gone) :=
  if data.length ≠ 48 then
    some (.error (.InvalidLength 48 data.length))
  else
    (cloneFromSlice 48 data).map fun buf => g1_from_fixed E buf

/-- `g2_from_variable` with the panic behaviour of `clone_from_slice` made
explicit (fixed 96-byte buffer). -/
def g2_from_variable_panicking (E : CurveEngine Gone Gtwo M GT) (data : List Nat) :
    Option (Except InvalidPoint Gtwo) :=
  if data.length ≠ 96 then
    some (.error (.InvalidLength 96 data.length))
  else
    (cloneFromSlice 96 data).map fun buf => g2_from_fixed E buf

end Points

/-- ASCII bytes of a string (the Rust byte-string literals are pure ASCII). -/
def strToBytes (s : String) : List Nat :=
  s.data.map Char.toNat

/-- `DOMAIN_HASH_TO_G2` from src/verify.rs. -/
def DOMAIN_HASH_TO_G2 : List Nat :=
  strToBytes "BLS_SIG_BLS12381G2_XMD:SHA-256_SSWU_RO_NUL_"

/-- `DOMAIN_HASH_TO_G1` from src/verify.rs. -/
def DOMAIN_HASH_TO_G1 : List Nat :=
  strToBytes "BLS_SIG_BLS12381G1_XMD:SHA-256_SSWU_RO_NUL_"

section Pairing

variable {Gone Gtwo M GT : Type}

/-- `fast_pairing_equality` from src/verify.rs: negate `p`, one multi-Miller
loop over the pairs `(-p, q)` and `(r, s)`, one final exponentiation, compare
with the identity of the target group. -/
def fast_pairing_equality [One GT] [DecidableEq GT]
    (E : CurveEngine Gone Gtwo M GT) (p : Gone) (q : Gtwo) (r : Gone) (s : Gtwo) :
    Bool :=
  decide (E.finalExp (E.multiMillerLoop [(E.negG1 p, q), (r, s)]) = 1)

/-- The bilinear pairing as the engine exposes it:
`pairing(p, q) = final_exponentiation(miller_loop(p, q))`. -/
def enginePairing (E : CurveEngine Gone Gtwo M GT) (p : Gone) (q : Gtwo) : GT :=
  E.finalExp (E.multiMillerLoop [(p, q)])

/-- Written from the spec's words for the refinement claim: compute the two
pairings independently and compare them. -/
def pairing_equality_spec [DecidableEq GT]
    (E : CurveEngine Gone Gtwo M GT) (p : Gone) (q : Gtwo) (r : Gone) (s : Gtwo) :
    Bool :=
  decide (enginePairing E p q = enginePairing E r s)

end Pairing

/-- `round_to_bytes` from src/verify.rs: `round.to_be_bytes()` of the u64
round number (big-endian, 8 bytes). -/
def round_to_bytes (round : Nat) : List Nat :=
  [round / 2 ^ 56 % 256, round / 2 ^ 48 % 256, round / 2 ^ 40 % 256,
   round / 2 ^ 32 % 256, round / 2 ^ 24 % 256, round / 2 ^ 16 % 256,
   round / 2 ^ 8 % 256, round % 256]

/-- `message` from src/verify.rs: SHA-256 of
`previous_signature || round_to_bytes(current_round)` (incremental `update`
calls hash the concatenation). -/
def message {Gone Gtwo M GT : Type} (E : CurveEngine Gone Gtwo M GT)
    (current_round : Nat) (prev_sig : List Nat) : List Nat :=
  E.sha256 (prev_sig ++ round_to_bytes current_round)

/-- `VerificationError` from src/verify.rs: the single variant
`InvalidPoint { field, msg }`. -/
inductive VerificationError where
  | InvalidPoint (field : String) (msg : String)
deriving DecidableEq, Repr

/-- The `Display` impl for `VerificationError` in src/verify.rs. -/
def VerificationError.display : VerificationError → String
  | .InvalidPoint field msg => "Invalid point for field " ++ field ++ ": " ++ msg

section Schemes

variable {Gone Gtwo M GT : Type}

/-- `G1Pubkey` from src/verify.rs: wraps a G1 point (the Rust newtype chain
`G1Pubkey(G1(G1Affine))` is collapsed to the single affine point). -/
structure G1Pubkey (P : Type) where
  point : P

/-- `G2PubkeyFastnet` from src/verify.rs: wraps a G2 point. -/
structure G2PubkeyFastnet (P : Type) where
  point : P

/-- `G2PubkeyRfc` from src/verify.rs: wraps a G2 point. -/
structure G2PubkeyRfc (P : Type) where
  point : P

/-- `G1Pubkey::msg_to_curve`: hash to G2 with `DOMAIN_HASH_TO_G2`. -/
def G1Pubkey.msg_to_curve (E : CurveEngine Gone Gtwo M GT) (msg : List Nat) : Gtwo :=
  E.hashToCurveG2 msg DOMAIN_HASH_TO_G2

/-- `G1Pubkey::from_fixed`. -/
def G1Pubkey.from_fixed (E : CurveEngine Gone Gtwo M GT) (data : List Nat) :
    Except InvalidPoint (G1Pubkey Gone) :=
  (g1_from_fixed E data).map G1Pubkey.mk

/-- `G1Pubkey::from_fixed_unchecked`. -/
def G1Pubkey.from_fixed_unchecked (E : CurveEngine Gone Gtwo M GT) (data : List Nat) :
    Except InvalidPoint (G1Pubkey Gone) :=
  (g1_from_fixed_unchecked E data).map G1Pubkey.mk

/-- `G1Pubkey::from_variable`. -/
def G1Pubkey.from_variable (E : CurveEngine Gone Gtwo M GT) (data : List Nat) :
    Except InvalidPoint (G1Pubkey Gone) :=
  (g1_from_variable E data).map G1Pubkey.mk

/-- `G1Pubkey::verify_step2` from src/verify.rs: decode the signature on G2
(96 bytes); on failure wrap the error as `VerificationError::InvalidPoint`
with field "signature"; on success run
`fast_pairing_equality(generator_G1, sigma, pubkey, msg_on_curve)`. -/
def G1Pubkey.verify_step2 [One GT] [DecidableEq GT]
    (E : CurveEngine Gone Gtwo M GT) (pk : G1Pubkey Gone)
    (signature : List Nat) (msg_on_curve : Gtwo) :
    Except VerificationError Bool :=
  match g2_from_variable E signature with
  | .error err => .error (.InvalidPoint "signature" err.display)
  | .ok sigma =>
      .ok (fast_pairing_equality E E.g1Generator sigma pk.point msg_on_curve)

/-- The `Pubkey::verify` default trait method, instantiated at `G1Pubkey`:
hash the message of the round and previous signature to the curve, then run
`verify_step2`. -/
def G1Pubkey.verify [One GT] [DecidableEq GT]
    (E : CurveEngine Gone Gtwo M GT) (pk : G1Pubkey Gone)
    (round : Nat) (previous_signature signature : List Nat) :
    Except VerificationError Bool :=
  G1Pubkey.verify_step2 E pk signature
    (G1Pubkey.msg_to_curve E (message E round previous_signature))

/-- `G2PubkeyFastnet::msg_to_curve`: hash to G1, deliberately with the G2
domain tag `DOMAIN_HASH_TO_G2` (bug-compatibility with drand fastnet). -/
def G2PubkeyFastnet.msg_to_curve (E : CurveEngine Gone Gtwo M GT) (msg : List Nat) : Gone :=
  E.hashToCurveG1 msg DOMAIN_HASH_TO_G2

/-- `G2PubkeyFastnet::from_fixed`. -/
def G2PubkeyFastnet.from_fixed (E : CurveEngine Gone Gtwo M GT) (data : List Nat) :
    Except InvalidPoint (G2PubkeyFastnet Gtwo) :=
  (g2_from_fixed E data).map G2PubkeyFastnet.mk

/-- `G2PubkeyFastnet::from_fixed_unchecked`. -/
def G2PubkeyFastnet.from_fixed_unchecked (E : CurveEngine Gone Gtwo M GT) (data : List Nat) :
    Except InvalidPoint (G2PubkeyFastnet Gtwo) :=
  (g2_from_fixed_unchecked E data).map G2PubkeyFastnet.mk

/-- `G2PubkeyFastnet::from_variable`. -/
def G2PubkeyFastnet.from_variable (E : CurveEngine Gone Gtwo M GT) (data : List Nat) :
    Except InvalidPoint (G2PubkeyFastnet Gtwo) :=
  (g2_from_variable E data).map G2PubkeyFastnet.mk

/-- `G2PubkeyFastnet::verify_step2`: decode the signature on G1 (48 bytes);
on failure wrap as `VerificationError::InvalidPoint` with field "signature";
on success run `fast_pairing_equality(sigma, generator_G2, msg_on_curve, pubkey)`. -/
def G2PubkeyFastnet.verify_step2 [One GT] [DecidableEq GT]
    (E : CurveEngine Gone Gtwo M GT) (pk : G2PubkeyFastnet Gtwo)
    (signature : List Nat) (msg_on_curve : Gone) :
    Except VerificationError Bool :=
  match g1_from_variable E signature with
  | .error err => .error (.InvalidPoint "signature" err.display)
  | .ok sigma =>
      .ok (fast_pairing_equality E sigma E.g2Generator msg_on_curve pk.point)

/-- The `Pubkey::verify` default trait method at `G2PubkeyFastnet`. -/
def G2PubkeyFastnet.verify [One GT] [DecidableEq GT]
    (E : CurveEngine Gone Gtwo M GT) (pk : G2PubkeyFastnet Gtwo)
    (round : Nat) (previous_signature signature : List Nat) :
    Except VerificationError Bool :=
  G2PubkeyFastnet.verify_step2 E pk signature
    (G2PubkeyFastnet.msg_to_curve E (message E round previous_signature))

/-- `G2PubkeyRfc::msg_to_curve`: hash to G1 with the G1-specific standard tag
`DOMAIN_HASH_TO_G1` (RFC 9380 compliant). -/
def G2PubkeyRfc.msg_to_curve (E : CurveEngine Gone Gtwo M GT) (msg : List Nat) : Gone :=
  E.hashToCurveG1 msg DOMAIN_HASH_TO_G1

/-- `G2PubkeyRfc::from_fixed`. -/
def G2PubkeyRfc.from_fixed (E : CurveEngine Gone Gtwo M GT) (data : List Nat) :
    Except InvalidPoint (G2PubkeyRfc Gtwo) :=
  (g2_from_fixed E data).map G2PubkeyRfc.mk

/-- `G2PubkeyRfc::from_fixed_unchecked`. -/
def G2PubkeyRfc.from_fixed_unchecked (E : CurveEngine Gone Gtwo M GT) (data : List Nat) :
    Except InvalidPoint (G2PubkeyRfc Gtwo) :=
  (g2_from_fixed_unchecked E data).map G2PubkeyRfc.mk

/-- `G2PubkeyRfc::from_variable`. -/
def G2PubkeyRfc.from_variable (E : CurveEngine Gone Gtwo M GT) (data : List Nat) :
    Except InvalidPoint (G2PubkeyRfc Gtwo) :=
  (g2_from_variable E data).map G2PubkeyRfc.mk

/-- `G2PubkeyRfc::verify_step2`: same pairing-argument order as the fastnet
scheme, only the domain tag of `msg_to_curve` differs. -/
def G2PubkeyRfc.verify_step2 [One GT] [DecidableEq GT]
    (E : CurveEngine Gone Gtwo M GT) (pk : G2PubkeyRfc Gtwo)
    (signature : List Nat) (msg_on_curve : Gone) :
    Except VerificationError Bool :=
  match g1_from_variable E signature with
  | .error err => .error (.InvalidPoint "signature" err.display)
  | .ok sigma =>
      .ok (fast_pairing_equality E sigma E.g2Generator msg_on_curve pk.point)

/-- The `Pubkey::verify` default trait method at `G2PubkeyRfc`. -/
def G2PubkeyRfc.verify [One GT] [DecidableEq GT]
    (E : CurveEngine Gone Gtwo M GT) (pk : G2PubkeyRfc Gtwo)
    (round : Nat) (previous_signature signature : List Nat) :
    Except VerificationError Bool :=
  G2PubkeyRfc.verify_step2 E pk signature
    (G2PubkeyRfc.msg_to_curve E (message E round previous_signature))

end Schemes

/-- Modelled from the spec: `derive_randomness` lives in the module
`randomness.rs`, which is not under src/ (src/src/lib.rs line 12 only
re-exports it).  Per the spec,
`derive_randomness(signature) = Hash(signature)` with the same fixed
cryptographic hash (SHA-256), pure and total, with no validation of the
input. -/
def derive_randomness {Gone Gtwo M GT : Type} (E : CurveEngine Gone Gtwo M GT)
    (signature : List Nat) : List Nat :=
  E.sha256 signature

/-- Modelled from the spec: the free function `verify` re-exported in
src/src/lib.rs line 13 and called by src/examples/drand_verify.rs is not
under src/.  Per the spec's shared algorithm (section 4.4) for the ChainedG1
variant it is the `Pubkey::verify` algorithm run on a bare G1 public-key
point, which coincides with `G1Pubkey.verify`. -/
def verify {Gone Gtwo M GT : Type} [One GT] [DecidableEq GT]
    (E : CurveEngine Gone Gtwo M GT) (pk : Gone)
    (round : Nat) (previous_signature signature : List Nat) :
    Except VerificationError Bool :=
  G1Pubkey.verify E (G1Pubkey.mk pk) round previous_signature signature

/-- One hex digit (`hex::decode` accepts lowercase and uppercase). -/
def hexDigitValue (c : Char) : Option Nat :=
  if 48 ≤ c.toNat ∧ c.toNat ≤ 57 then some (c.toNat - 48)
  else if 97 ≤ c.toNat ∧ c.toNat ≤ 102 then some (c.toNat - 87)
  else if 65 ≤ c.toNat ∧ c.toNat ≤ 70 then some (c.toNat - 55)
  else none

/-- `hex::decode` on a character list: pairs of hex digits to bytes; fails on
a non-digit or an odd length. -/
def hexDecodeChars : List Char → Option (List Nat)
  | [] => some []
  | [_] => none
  | c1 :: c2 :: rest => do
      let hi ← hexDigitValue c1
      let lo ← hexDigitValue c2
      let tail ← hexDecodeChars rest
      pure ((16 * hi + lo) :: tail)

/-- `hex::decode` on a string. -/
def hexDecode (s : String) : Option (List Nat) :=
  hexDecodeChars s.data

/-- One lowercase hex digit character of a value `< 16`. -/
def hexDigitChar (n : Nat) : Char :=
  if n < 10 then Char.ofNat (48 + n) else Char.ofNat (87 + n)

/-- `hex::encode`: lowercase hex string of a byte list. -/
def hexEncode (bs : List Nat) : String :=
  String.mk ((bs.map fun b => [hexDigitChar (b / 16 % 16), hexDigitChar (b % 16)]).flatten)

/-- `str::parse::<u64>`: an optional leading plus sign, then at least one
decimal digit, and the value must fit in 64 bits. -/
def parseU64 (s : String) : Option Nat :=
  let ds := if s.data.head? = some '+' then s.data.tail else s.data
  if ds ≠ [] ∧ ds.all Char.isDigit then
    let v := ds.foldl (fun a c => 10 * a + (c.toNat - 48)) 0
    if v < 2 ^ 64 then some v else none
  else none

/-- `PK_LEO_MAINNET` from src/examples/drand_verify.rs (48 bytes, the classic
League of Entropy mainnet G1 public key). -/
def PK_LEO_MAINNET : List Nat :=
  [0x86, 0x8f, 0x00, 0x5e, 0xb8, 0xe6, 0xe4, 0xca, 0x0a, 0x47, 0xc8, 0xa7,
   0x7c, 0xea, 0xa5, 0x30, 0x9a, 0x47, 0x97, 0x8a, 0x7c, 0x71, 0xbc, 0x5c,
   0xce, 0x96, 0x36, 0x6b, 0x5d, 0x7a, 0x56, 0x99, 0x37, 0xc5, 0x29, 0xee,
   0xda, 0x66, 0xc7, 0x29, 0x37, 0x84, 0xa9, 0x40, 0x28, 0x01, 0xaf, 0x31]

/-- Observable result of one CLI run: exit code, stdout lines, stderr lines. -/
structure CliResult where
  exitCode : Nat
  stdout : List String
  stderr : List String
deriving DecidableEq, Repr

/-- `main_impl` from src/examples/drand_verify.rs.  `args` is the full
argument vector including the program name (`args.len() != 4` means a wrong
count of the three positional arguments).  `none` models a panic (a failing
`unwrap` on the public key, the round parse or the hex decodes). -/
def main_impl {Gone Gtwo M GT : Type} [One GT] [DecidableEq GT]
    (E : CurveEngine Gone Gtwo M GT) (args : List String) : Option CliResult :=
  match g1_from_fixed E PK_LEO_MAINNET with
  | .error _ => none
  | .ok pk =>
    match args with
    | [_, roundArg, prevArg, sigArg] =>
      match parseU64 roundArg, hexDecode prevArg, hexDecode sigArg with
      | some round, some previous_signature, some signature =>
        match verify E pk round previous_signature signature with
        | .error err =>
            some ⟨12, [], ["Error during verification: " ++ err.display]⟩
        | .ok true =>
            some ⟨0, ["Verification succeeded",
                      "Randomness: " ++ hexEncode (derive_randomness E signature)], []⟩
        | .ok false =>
            some ⟨1, ["Verification failed"], []⟩
      | _, _, _ => none
    | _ =>
      some ⟨100, [],
        ["Must be called with 3 arguments (round, previous_signature, signature)"]⟩

/-- A concrete engine instance on which the pairing always lands on the
identity, so that every structurally valid signature verifies.  Used to
evaluate the theorems at concrete inputs. -/
def toyEngineTrue : CurveEngine Nat Nat Nat Nat where
  sha256 := fun _ => List.replicate 32 0
  hashToCurveG1 := fun _ _ => 0
  hashToCurveG2 := fun _ _ => 0
  g1FromCompressed := fun _ => some 0
  g1FromCompressedUnchecked := fun _ => some 0
  g2FromCompressed := fun _ => some 0
  g2FromCompressedUnchecked := fun _ => some 0
  g1Generator := 0
  g2Generator := 0
  negG1 := fun p => p
  multiMillerLoop := fun _ => 0
  finalExp := fun _ => 1

/-- A concrete engine instance on which the pairing never lands on the
identity, so that every structurally valid signature fails verification. -/
def toyEngineFalse : CurveEngine Nat Nat Nat Nat where
  sha256 := fun _ => List.replicate 32 0
  hashToCurveG1 := fun _ _ => 0
  hashToCurveG2 := fun _ _ => 0
  g1FromCompressed := fun _ => some 0
  g1FromCompressedUnchecked := fun _ => some 0
  g2FromCompressed := fun _ => some 0
  g2FromCompressedUnchecked := fun _ => some 0
  g1Generator := 0
  g2Generator := 0
  negG1 := fun p => p
  multiMillerLoop := fun _ => 0
  finalExp := fun _ => 0

/-- A concrete engine instance whose checked decompression rejects an
encoding that the unchecked decompression accepts — the behaviour of
`bls12_381::G1Affine::from_compressed_unchecked` on the compressed encoding
of a curve point outside the prime-order subgroup (the unchecked variant
skips exactly the curve/subgroup validity check). -/
def toyEngineUnchecked : CurveEngine Nat Nat Nat Nat where
  sha256 := fun _ => List.replicate 32 0
  hashToCurveG1 := fun _ _ => 0
  hashToCurveG2 := fun _ _ => 0
  g1FromCompressed := fun _ => none
  g1FromCompressedUnchecked := fun _ => some 0
  g2FromCompressed := fun _ => none
  g2FromCompressedUnchecked := fun _ => some 0
  g1Generator := 0
  g2Generator := 0
  negG1 := fun p => p
  multiMillerLoop := fun _ => 0
  finalExp := fun _ => 1

/-- A concrete engine instance carrying a genuine (toy) bilinear pairing:
points are `ZMod 5`, the pairing is multiplication landing in the
multiplicative group of `ZMod 5` written additively, the Miller loop of a
pair list is the sum of the products, and the final exponentiation is the
additive-to-multiplicative coercion.  It satisfies the algebraic hypotheses
(Miller-loop multiplicativity and pairing bilinearity) of the refinement
theorem for the pairing equality. -/
def toyPairingEngine : CurveEngine (ZMod 5) (ZMod 5) (ZMod 5) (Multiplicative (ZMod 5)) where
  sha256 := fun _ => List.replicate 32 0
  hashToCurveG1 := fun _ _ => 0
  hashToCurveG2 := fun _ _ => 0
  g1FromCompressed := fun _ => some 0
  g1FromCompressedUnchecked := fun _ => some 0
  g2FromCompressed := fun _ => some 0
  g2FromCompressedUnchecked := fun _ => some 0
  g1Generator := 1
  g2Generator := 1
  negG1 := fun p => -p
  multiMillerLoop := fun ps => (ps.map fun ab => ab.1 * ab.2).sum
  finalExp := fun x => Multiplicative.ofAdd x

/-- C1: for all group-1 points `p`, `r` and group-2 points `q`, `s`,
`fast_pairing_equality` — negate `p`, one multi-Miller loop over `(-p, q)`
and `(r, s)`, one final exponentiation, compare with the target-group
identity — returns true iff the pairing of `p` with `q` equals the pairing of
`r` with `s`; as a function it equals computing the two pairings
independently and comparing them.  The hypotheses are the algebraic facts the
optimisation relies on: the final exponentiation of a two-pair Miller loop is
the product of the two pairings, and negating the G1 argument inverts the
pairing. -/
theorem fast_pairing_equality_eq_pairing_equality_spec
    {Gone Gtwo M GT : Type} [Group GT] [DecidableEq GT]
    (E : CurveEngine Gone Gtwo M GT)
    (hsplit : ∀ a b c d, E.finalExp (E.multiMillerLoop [(a, b), (c, d)]) =
      enginePairing E a b * enginePairing E c d)
    (hneg : ∀ a b, enginePairing E (E.negG1 a) b = (enginePairing E a b)⁻¹)
    (p : Gone) (q : Gtwo) (r : Gone) (s : Gtwo) :
    fast_pairing_equality E p q r s = pairing_equality_spec E p q r s := by
  simp only [fast_pairing_equality, pairing_equality_spec, hsplit, hneg,
    inv_mul_eq_one, eq_comm]

/-- Witness for C1: the refinement theorem evaluated on the concrete toy
pairing engine at concrete points. -/
theorem fast_pairing_equality_eq_pairing_equality_spec_witness :
    fast_pairing_equality toyPairingEngine 2 3 1 4 =
      pairing_equality_spec toyPairingEngine 2 3 1 4 :=
  fast_pairing_equality_eq_pairing_equality_spec toyPairingEngine
    (by decide) (by decide) 2 3 1 4

/-- C2: for every round and previous-signature byte string, the message that
`verify` hashes to the curve is exactly the 32-byte SHA-256 digest of
`previous_signature ++ big_endian_u64(round)` — the appended block is 8 bytes
of values below 256 whose big-endian value is `round mod 2^64` — and for each
of the three schemes `verify round previous_signature signature` equals
`verify_step2 signature (msg_to_curve message)`. -/
theorem verify_message_is_sha256_of_prev_and_round
    {Gone Gtwo M GT : Type} [One GT] [DecidableEq GT]
    (E : CurveEngine Gone Gtwo M GT)
    (hsha : ∀ m, (E.sha256 m).length = 32)
    (round : Nat) (previous_signature signature : List Nat)
    (pk1 : G1Pubkey Gone) (pk2 : G2PubkeyFastnet Gtwo) (pk3 : G2PubkeyRfc Gtwo) :
    message E round previous_signature =
        E.sha256 (previous_signature ++ round_to_bytes round)
    ∧ (message E round previous_signature).length = 32
    ∧ (round_to_bytes round).length = 8
    ∧ (round_to_bytes round).foldl (fun acc b => 256 * acc + b) 0 = round % 2 ^ 64
    ∧ (∀ b ∈ round_to_bytes round, b < 256)
    ∧ G1Pubkey.verify E pk1 round previous_signature signature =
        G1Pubkey.verify_step2 E pk1 signature
          (G1Pubkey.msg_to_curve E (message E round previous_signature))
    ∧ G2PubkeyFastnet.verify E pk2 round previous_signature signature =
        G2PubkeyFastnet.verify_step2 E pk2 signature
          (G2PubkeyFastnet.msg_to_curve E (message E round previous_signature))
    ∧ G2PubkeyRfc.verify E pk3 round previous_signature signature =
        G2PubkeyRfc.verify_step2 E pk3 signature
          (G2PubkeyRfc.msg_to_curve E (message E round previous_signature)) := by
  refine ⟨rfl, hsha _, rfl, ?_, ?_, rfl, rfl, rfl⟩
  · simp only [round_to_bytes, List.foldl_cons, List.foldl_nil]
    omega
  · intro b hb
    simp only [round_to_bytes, List.mem_cons, List.not_mem_nil, or_false] at hb
    rcases hb with h | h | h | h | h | h | h | h <;> subst h <;> omega

/-- Witness for C2: evaluated on the concrete toy engine at round 72785 with
an empty previous signature. -/
theorem verify_message_is_sha256_of_prev_and_round_witness :
    (round_to_bytes 72785).foldl (fun acc b => 256 * acc + b) 0 = 72785 % 2 ^ 64
    ∧ (message toyEngineTrue 72785 []).length = 32 :=
  have h := verify_message_is_sha256_of_prev_and_round toyEngineTrue
    (fun _ => rfl) 72785 [] [] ⟨0⟩ ⟨0⟩ ⟨0⟩
  ⟨h.2.2.2.1, h.2.1⟩

/-- C3: `G2PubkeyFastnet::msg_to_curve` hashes the message to group 1 with
the legacy G2 domain tag (deliberate bug-compatible reuse of the other
scheme's tag), while `G2PubkeyRfc::msg_to_curve` hashes to group 1 with the
group-1-specific standard tag; both tags are fixed hard-coded constants (the
exact ASCII bytes are pinned below) and the two tags differ. -/
theorem msg_to_curve_domain_tags
    {Gone Gtwo M GT : Type} (E : CurveEngine Gone Gtwo M GT) (msg : List Nat) :
    G2PubkeyFastnet.msg_to_curve E msg = E.hashToCurveG1 msg DOMAIN_HASH_TO_G2
    ∧ G2PubkeyRfc.msg_to_curve E msg = E.hashToCurveG1 msg DOMAIN_HASH_TO_G1
    ∧ DOMAIN_HASH_TO_G2 = strToBytes "BLS_SIG_BLS12381G2_XMD:SHA-256_SSWU_RO_NUL_"
    ∧ DOMAIN_HASH_TO_G1 = strToBytes "BLS_SIG_BLS12381G1_XMD:SHA-256_SSWU_RO_NUL_"
    ∧ DOMAIN_HASH_TO_G2 ≠ DOMAIN_HASH_TO_G1 :=
  ⟨rfl, rfl, rfl, rfl, by decide⟩

/-- C4: for every scheme variant, if the signature bytes fail to decode as a
point of the scheme's signature group then `verify` returns
`VerificationError::InvalidPoint` with field "signature" (the pairing is
never consulted: the error does not depend on it), and if the signature
decodes then `verify` returns `Ok` of the boolean pairing-equality result —
error and boolean are disjoint `Except` outcomes. -/
theorem verify_invalid_signature_vs_false
    {Gone Gtwo M GT : Type} [One GT] [DecidableEq GT]
    (E : CurveEngine Gone Gtwo M GT)
    (pk1 : G1Pubkey Gone) (pk2 : G2PubkeyFastnet Gtwo) (pk3 : G2PubkeyRfc Gtwo)
    (round : Nat) (previous_signature signature : List Nat) :
    (∀ err, g2_from_variable E signature = .error err →
      G1Pubkey.verify E pk1 round previous_signature signature =
        .error (.InvalidPoint "signature" err.display))
    ∧ (∀ sigma, g2_from_variable E signature = .ok sigma →
      G1Pubkey.verify E pk1 round previous_signature signature =
        .ok (fast_pairing_equality E E.g1Generator sigma pk1.point
          (G1Pubkey.msg_to_curve E (message E round previous_signature))))
    ∧ (∀ err, g1_from_variable E signature = .error err →
      G2PubkeyFastnet.verify E pk2 round previous_signature signature =
        .error (.InvalidPoint "signature" err.display))
    ∧ (∀ sigma, g1_from_variable E signature = .ok sigma →
      G2PubkeyFastnet.verify E pk2 round previous_signature signature =
        .ok (fast_pairing_equality E sigma E.g2Generator
          (G2PubkeyFastnet.msg_to_curve E (message E round previous_signature)) pk2.point))
    ∧ (∀ err, g1_from_variable E signature = .error err →
      G2PubkeyRfc.verify E pk3 round previous_signature signature =
        .error (.InvalidPoint "signature" err.display))
    ∧ (∀ sigma, g1_from_variable E signature = .ok sigma →
      G2PubkeyRfc.verify E pk3 round previous_signature signature =
        .ok (fast_pairing_equality E sigma E.g2Generator
          (G2PubkeyRfc.msg_to_curve E (message E round previous_signature)) pk3.point)) := by
  refine ⟨?_, ?_, ?_, ?_, ?_, ?_⟩ <;> intro x hx <;>
    simp only [G1Pubkey.verify, G1Pubkey.verify_step2,
      G2PubkeyFastnet.verify, G2PubkeyFastnet.verify_step2,
      G2PubkeyRfc.verify, G2PubkeyRfc.verify_step2, hx]

/-- Witness for C4: the toy engine at a 1-byte signature (wrong length for
either group, hence `InvalidPoint`) and at signatures of the correct lengths
(hence an `Ok` boolean). -/
theorem verify_invalid_signature_vs_false_witness :
    G1Pubkey.verify toyEngineTrue ⟨0⟩ 1 [] [0] =
      .error (.InvalidPoint "signature" (InvalidPoint.InvalidLength 96 1).display)
    ∧ G1Pubkey.verify toyEngineTrue ⟨0⟩ 1 [] (List.replicate 96 0) =
      .ok (fast_pairing_equality toyEngineTrue toyEngineTrue.g1Generator 0
        (G1Pubkey.point ⟨0⟩)
        (G1Pubkey.msg_to_curve toyEngineTrue (message toyEngineTrue 1 [])))
    ∧ G2PubkeyFastnet.verify toyEngineTrue ⟨0⟩ 1 [] [0] =
      .error (.InvalidPoint "signature" (InvalidPoint.InvalidLength 48 1).display)
    ∧ G2PubkeyFastnet.verify toyEngineTrue ⟨0⟩ 1 [] (List.replicate 48 0) =
      .ok (fast_pairing_equality toyEngineTrue 0 toyEngineTrue.g2Generator
        (G2PubkeyFastnet.msg_to_curve toyEngineTrue (message toyEngineTrue 1 []))
        (G2PubkeyFastnet.point ⟨0⟩))
    ∧ G2PubkeyRfc.verify toyEngineTrue ⟨0⟩ 1 [] (List.replicate 48 0) =
      .ok (fast_pairing_equality toyEngineTrue 0 toyEngineTrue.g2Generator
        (G2PubkeyRfc.msg_to_curve toyEngineTrue (message toyEngineTrue 1 []))
        (G2PubkeyRfc.point ⟨0⟩)) :=
  ⟨(verify_invalid_signature_vs_false toyEngineTrue ⟨0⟩ ⟨0⟩ ⟨0⟩ 1 [] [0]).1
      (.InvalidLength 96 1) rfl,
   (verify_invalid_signature_vs_false toyEngineTrue ⟨0⟩ ⟨0⟩ ⟨0⟩ 1 []
      (List.replicate 96 0)).2.1 0 rfl,
   (verify_invalid_signature_vs_false toyEngineTrue ⟨0⟩ ⟨0⟩ ⟨0⟩ 1 [] [0]).2.2.1
      (.InvalidLength 48 1) rfl,
   (verify_invalid_signature_vs_false toyEngineTrue ⟨0⟩ ⟨0⟩ ⟨0⟩ 1 []
      (List.replicate 48 0)).2.2.2.1 0 rfl,
   (verify_invalid_signature_vs_false toyEngineTrue ⟨0⟩ ⟨0⟩ ⟨0⟩ 1 []
      (List.replicate 48 0)).2.2.2.2.2 0 rfl⟩

/-- C5 counterexample: on a 47-byte input where 48 is expected (and a 95-byte
input where 96 is expected) the variable-length decoders fail with
`InvalidPoint::InvalidLength { expected, actual }` — the `InvalidPoint` enum
of src/points.rs, embedded verbatim above, has exactly the two constructors
`InvalidLength (expected actual)` and `DecodingError`: there is no
`UnexpectedLength` variant, and no generic length variant carrying only the
actual size, contrary to the claim's taxonomy. -/
theorem decode_variable_length_error_counterexample :
    g1_from_variable toyEngineTrue (List.replicate 47 0) =
      .error (InvalidPoint.InvalidLength 48 47)
    ∧ g2_from_variable toyEngineTrue (List.replicate 95 0) =
      .error (InvalidPoint.InvalidLength 96 95) :=
  ⟨rfl, rfl⟩

/-- C5 amended: for every byte slice whose length differs from the expected
fixed size of the target group, the variable-length decoder fails with
`InvalidLength` carrying the expected and actual sizes — the single
length-error variant of `InvalidPoint` — and on a matching length it
delegates to the checked fixed-size decoder. -/
theorem decode_variable_length_dispatch
    {Gone Gtwo M GT : Type} (E : CurveEngine Gone Gtwo M GT) (data : List Nat) :
    (g1_from_variable E data =
      if data.length = 48 then g1_from_fixed E data
      else .error (.InvalidLength 48 data.length))
    ∧ (g2_from_variable E data =
      if data.length = 96 then g2_from_fixed E data
      else .error (.InvalidLength 96 data.length)) := by
  constructor
  · by_cases h : data.length = 48 <;> simp [g1_from_variable, h]
  · by_cases h : data.length = 96 <;> simp [g2_from_variable, h]

/-- C6 counterexample: the `from_fixed_unchecked` constructors do not fail on
an invalid key.  On an engine whose unchecked decompression accepts an
encoding that the checked decompression rejects — exactly the behaviour of
`bls12_381`'s `from_compressed_unchecked` on the compressed encoding of a
curve point outside the prime-order subgroup, since the unchecked variant
skips the curve/subgroup validity check — a `G1Pubkey` (and a
`G2PubkeyFastnet`, and a `G2PubkeyRfc`) instance is successfully constructed
from a key that fails checked validation, so such a key can reach `verify`. -/
theorem pubkey_unchecked_construction_counterexample :
    G1Pubkey.from_fixed_unchecked toyEngineUnchecked (List.replicate 48 0) = .ok ⟨0⟩
    ∧ g1_from_fixed toyEngineUnchecked (List.replicate 48 0) =
        .error InvalidPoint.DecodingError
    ∧ G2PubkeyFastnet.from_fixed_unchecked toyEngineUnchecked (List.replicate 96 0) = .ok ⟨0⟩
    ∧ G2PubkeyRfc.from_fixed_unchecked toyEngineUnchecked (List.replicate 96 0) = .ok ⟨0⟩
    ∧ g2_from_fixed toyEngineUnchecked (List.replicate 96 0) =
        .error InvalidPoint.DecodingError :=
  ⟨rfl, rfl, rfl, rfl, rfl⟩

/-- C6 amended: every `Pubkey` instance constructed through the checked
constructors (`from_fixed`, `from_variable`) holds a key accepted by the
engine's checked decompression (on-curve, in the prime-order subgroup), and
`from_variable` additionally guarantees the correct encoded length; the
`from_fixed_unchecked` constructors guarantee only that the unchecked
decompression succeeded, which may accept keys the checked path rejects. -/
theorem pubkey_checked_construction_invariant
    {Gone Gtwo M GT : Type} (E : CurveEngine Gone Gtwo M GT) :
    (∀ data pk, G1Pubkey.from_fixed E data = .ok pk →
      E.g1FromCompressed data = some pk.point)
    ∧ (∀ data pk, G1Pubkey.from_variable E data = .ok pk →
      data.length = 48 ∧ E.g1FromCompressed data = some pk.point)
    ∧ (∀ data pk, G2PubkeyFastnet.from_fixed E data = .ok pk →
      E.g2FromCompressed data = some pk.point)
    ∧ (∀ data pk, G2PubkeyFastnet.from_variable E data = .ok pk →
      data.length = 96 ∧ E.g2FromCompressed data = some pk.point)
    ∧ (∀ data pk, G2PubkeyRfc.from_fixed E data = .ok pk →
      E.g2FromCompressed data = some pk.point)
    ∧ (∀ data pk, G2PubkeyRfc.from_variable E data = .ok pk →
      data.length = 96 ∧ E.g2FromCompressed data = some pk.point)
    ∧ (∀ data pk, G1Pubkey.from_fixed_unchecked E data = .ok pk →
      E.g1FromCompressedUnchecked data = some pk.point) := by
  have hg1 : ∀ data p, g1_from_fixed E data = .ok p → E.g1FromCompressed data = some p := by
    intro data p h
    unfold g1_from_fixed at h
    cases hE : E.g1FromCompressed data <;> rw [hE] at h <;> cases h
    rfl
  have hg2 : ∀ data p, g2_from_fixed E data = .ok p → E.g2FromCompressed data = some p := by
    intro data p h
    unfold g2_from_fixed at h
    cases hE : E.g2FromCompressed data <;> rw [hE] at h <;> cases h
    rfl
  have hv1 : ∀ data p, g1_from_variable E data = .ok p →
      data.length = 48 ∧ E.g1FromCompressed data = some p := by
    intro data p h
    unfold g1_from_variable at h
    by_cases hlen : data.length = 48
    · simp only [hlen, ne_eq, not_true_eq_false, if_false] at h
      exact ⟨hlen, hg1 data p h⟩
    · simp only [ne_eq, hlen, not_false_eq_true, if_true] at h
      cases h
  have hv2 : ∀ data p, g2_from_variable E data = .ok p →
      data.length = 96 ∧ E.g2FromCompressed data = some p := by
    intro data p h
    unfold g2_from_variable at h
    by_cases hlen : data.length = 96
    · simp only [hlen, ne_eq, not_true_eq_false, if_false] at h
      exact ⟨hlen, hg2 data p h⟩
    · simp only [ne_eq, hlen, not_false_eq_true, if_true] at h
      cases h
  have hu1 : ∀ data p, g1_from_fixed_unchecked E data = .ok p →
      E.g1FromCompressedUnchecked data = some p := by
    intro data p h
    unfold g1_from_fixed_unchecked at h
    cases hE : E.g1FromCompressedUnchecked data <;> rw [hE] at h <;> cases h
    rfl
  refine ⟨?_, ?_, ?_, ?_, ?_, ?_, ?_⟩ <;> intro data pk h
  · exact hg1 data pk.point (by
      unfold G1Pubkey.from_fixed at h
      cases hE : g1_from_fixed E data <;> rw [hE] at h <;> cases h
      rfl)
  · have := hv1 data pk.point (by
      unfold G1Pubkey.from_variable at h
      cases hE : g1_from_variable E data <;> rw [hE] at h <;> cases h
      rfl)
    exact this
  · exact hg2 data pk.point (by
      unfold G2PubkeyFastnet.from_fixed at h
      cases hE : g2_from_fixed E data <;> rw [hE] at h <;> cases h
      rfl)
  · exact hv2 data pk.point (by
      unfold G2PubkeyFastnet.from_variable at h
      cases hE : g2_from_variable E data <;> rw [hE] at h <;> cases h
      rfl)
  · exact hg2 data pk.point (by
      unfold G2PubkeyRfc.from_fixed at h
      cases hE : g2_from_fixed E data <;> rw [hE] at h <;> cases h
      rfl)
  · exact hv2 data pk.point (by
      unfold G2PubkeyRfc.from_variable at h
      cases hE : g2_from_variable E data <;> rw [hE] at h <;> cases h
      rfl)
  · exact hu1 data pk.point (by
      unfold G1Pubkey.from_fixed_unchecked at h
      cases hE : g1_from_fixed_unchecked E data <;> rw [hE] at h <;> cases h
      rfl)

/-- Witness for C6 (amended): a concretely constructed `G1Pubkey` whose key
the engine's checked decompression demonstrably accepted. -/
theorem pubkey_checked_construction_invariant_witness :
    G1Pubkey.from_fixed toyEngineTrue (List.replicate 48 0) = .ok ⟨0⟩
    ∧ toyEngineTrue.g1FromCompressed (List.replicate 48 0) = some 0 :=
  ⟨rfl, (pubkey_checked_construction_invariant toyEngineTrue).1
    (List.replicate 48 0) ⟨0⟩ rfl⟩

/-- C7: `derive_randomness` applied to any signature byte string is exactly
the 32-byte SHA-256 digest of those bytes; it is total on all byte strings,
performs no validation, and — being a function — identical input bytes yield
the identical 32-byte output.  (Modelled from the spec, see
`derive_randomness`.) -/
theorem derive_randomness_is_sha256
    {Gone Gtwo M GT : Type} (E : CurveEngine Gone Gtwo M GT)
    (hsha : ∀ m, (E.sha256 m).length = 32) (signature : List Nat) :
    derive_randomness E signature = E.sha256 signature
    ∧ (derive_randomness E signature).length = 32 :=
  ⟨rfl, hsha signature⟩

/-- Witness for C7: evaluated on the concrete toy engine. -/
theorem derive_randomness_is_sha256_witness :
    derive_randomness toyEngineTrue [1, 2, 3] = toyEngineTrue.sha256 [1, 2, 3]
    ∧ (derive_randomness toyEngineTrue [1, 2, 3]).length = 32 :=
  derive_randomness_is_sha256 toyEngineTrue (fun _ => rfl) [1, 2, 3]

/-- C9: whenever the checked fixed-size decoder succeeds with a point, the
unchecked fixed-size decoder succeeds with the same point, both on G1 and on
G2.  The hypotheses record the corresponding refinement of the external
engine's decompression (`from_compressed` is `from_compressed_unchecked`
followed by validity checks, so a checked success is an unchecked success),
which the repository's own tests `g1_from_fixed_unchecked_works` and
`g2_from_fixed_unchecked_works` assert on real data. -/
theorem from_fixed_checked_agrees_with_unchecked
    {Gone Gtwo M GT : Type} (E : CurveEngine Gone Gtwo M GT)
    (hg1 : ∀ d q, E.g1FromCompressed d = some q → E.g1FromCompressedUnchecked d = some q)
    (hg2 : ∀ d q, E.g2FromCompressed d = some q → E.g2FromCompressedUnchecked d = some q)
    (data : List Nat) (p1 : Gone) (p2 : Gtwo) :
    (g1_from_fixed E data = .ok p1 → g1_from_fixed_unchecked E data = .ok p1)
    ∧ (g2_from_fixed E data = .ok p2 → g2_from_fixed_unchecked E data = .ok p2) := by
  constructor
  · intro h
    unfold g1_from_fixed at h
    cases hE : E.g1FromCompressed data <;> rw [hE] at h <;> cases h
    unfold g1_from_fixed_unchecked
    rw [hg1 data _ hE]
  · intro h
    unfold g2_from_fixed at h
    cases hE : E.g2FromCompressed data <;> rw [hE] at h <;> cases h
    unfold g2_from_fixed_unchecked
    rw [hg2 data _ hE]

/-- Witness for C9: on the concrete toy engine (where checked and unchecked
decompression coincide) at a concrete 48-byte input. -/
theorem from_fixed_checked_agrees_with_unchecked_witness :
    g1_from_fixed toyEngineTrue (List.replicate 48 0) = .ok 0
    ∧ g1_from_fixed_unchecked toyEngineTrue (List.replicate 48 0) = .ok 0 :=
  ⟨rfl, (from_fixed_checked_agrees_with_unchecked toyEngineTrue
    (fun _ _ h => h) (fun _ _ h => h) (List.replicate 48 0) 0 0).1 rfl⟩

/-- C10: `g1_from_variable` and `g2_from_variable` are total on byte slices
of every length and never panic: under the explicit panic model of the
`clone_from_slice` copy into the fixed 48- or 96-byte buffer (`none` models a
panic), they always return `some` of the ordinary `Ok`-or-`InvalidPoint`
result, because the copy is only reached when the length check has
established that the slice has exactly the buffer's length. -/
theorem from_variable_never_panics
    {Gone Gtwo M GT : Type} (E : CurveEngine Gone Gtwo M GT) (data : List Nat) :
    g1_from_variable_panicking E data = some (g1_from_variable E data)
    ∧ g2_from_variable_panicking E data = some (g2_from_variable E data) := by
  constructor
  · by_cases h : data.length = 48 <;>
      simp [g1_from_variable_panicking, g1_from_variable, cloneFromSlice, h]
  · by_cases h : data.length = 96 <;>
      simp [g2_from_variable_panicking, g2_from_variable, cloneFromSlice, h]

/-- C8: the command-line entry point `main_impl`, given positional arguments
round, previous-signature hex and signature hex, exits with code 0 when
`verify` returns `Ok(true)` — and then additionally prints the derived
randomness as a hex string — code 1 when `verify` returns `Ok(false)`,
code 12 when `verify` returns a verification error, and code 100 when the
argument count is wrong. -/
theorem main_impl_exit_codes
    {Gone Gtwo M GT : Type} [One GT] [DecidableEq GT]
    (E : CurveEngine Gone Gtwo M GT) (p : Gone)
    (hpk : g1_from_fixed E PK_LEO_MAINNET = .ok p) :
    (∀ args, args.length ≠ 4 → main_impl E args =
      some ⟨100, [],
        ["Must be called with 3 arguments (round, previous_signature, signature)"]⟩)
    ∧ (∀ nameArg roundArg prevArg sigArg round prev sig,
        parseU64 roundArg = some round →
        hexDecode prevArg = some prev →
        hexDecode sigArg = some sig →
        ((verify E p round prev sig = .ok true →
            main_impl E [nameArg, roundArg, prevArg, sigArg] =
              some ⟨0, ["Verification succeeded",
                "Randomness: " ++ hexEncode (derive_randomness E sig)], []⟩)
         ∧ (verify E p round prev sig = .ok false →
            main_impl E [nameArg, roundArg, prevArg, sigArg] =
              some ⟨1, ["Verification failed"], []⟩)
         ∧ (∀ err, verify E p round prev sig = .error err →
            main_impl E [nameArg, roundArg, prevArg, sigArg] =
              some ⟨12, [], ["Error during verification: " ++ err.display]⟩))) := by
  constructor
  · intro args hlen
    rcases args with _ | ⟨a1, _ | ⟨a2, _ | ⟨a3, _ | ⟨a4, _ | ⟨a5, rest⟩⟩⟩⟩⟩
    · simp only [main_impl, hpk]
    · simp only [main_impl, hpk]
    · simp only [main_impl, hpk]
    · simp only [main_impl, hpk]
    · exact absurd rfl hlen
    · simp only [main_impl, hpk]
  · intro nameArg roundArg prevArg sigArg round prev sig hr hp hs
    refine ⟨?_, ?_, ?_⟩
    · intro hv
      simp only [main_impl, hpk, hr, hp, hs, hv]
    · intro hv
      simp only [main_impl, hpk, hr, hp, hs, hv]
    · intro err hv
      simp only [main_impl, hpk, hr, hp, hs, hv]

set_option maxRecDepth 8000 in
/-- Witness for C8: all four exit codes observed on concrete argument
vectors over the concrete toy engines (a 192-hex-character signature decodes
to 96 bytes and verifies or not depending on the engine's pairing; "00"
decodes to one byte and is rejected as an invalid signature point). -/
theorem main_impl_exit_codes_witness :
    main_impl toyEngineTrue ["drand-verify"] =
      some ⟨100, [],
        ["Must be called with 3 arguments (round, previous_signature, signature)"]⟩
    ∧ main_impl toyEngineTrue
        ["drand-verify", "1", "", String.mk (List.replicate 192 '0')] =
      some ⟨0, ["Verification succeeded",
        "Randomness: " ++ hexEncode (derive_randomness toyEngineTrue (List.replicate 96 0))], []⟩
    ∧ main_impl toyEngineFalse
        ["drand-verify", "1", "", String.mk (List.replicate 192 '0')] =
      some ⟨1, ["Verification failed"], []⟩
    ∧ main_impl toyEngineTrue ["drand-verify", "1", "", "00"] =
      some ⟨12, [], ["Error during verification: " ++
        (VerificationError.InvalidPoint "signature"
          (InvalidPoint.InvalidLength 96 1).display).display]⟩ :=
  ⟨(main_impl_exit_codes toyEngineTrue 0 rfl).1 ["drand-verify"] (by decide),
   ((main_impl_exit_codes toyEngineTrue 0 rfl).2 "drand-verify" "1" ""
      (String.mk (List.replicate 192 '0')) 1 [] (List.replicate 96 0)
      rfl rfl rfl).1 rfl,
   ((main_impl_exit_codes toyEngineFalse 0 rfl).2 "drand-verify" "1" ""
      (String.mk (List.replicate 192 '0')) 1 [] (List.replicate 96 0)
      rfl rfl rfl).2.1 rfl,
   ((main_impl_exit_codes toyEngineTrue 0 rfl).2 "drand-verify" "1" "" "00"
      1 [] [0] rfl rfl rfl).2.2
      (.InvalidPoint "signature" (InvalidPoint.InvalidLength 96 1).display) rfl⟩
